import Mathlib

/-!
Verification of the SkribbLoL chat-service against its specification.

The development shallowly embeds the service's JavaScript source:

* `RedisChatClient` (RedisSingleton.js, both the node-redis and the ioredis
  variant have identical chat semantics): `storeChatMessage` does
  `lPush` then `lTrim key 0 99`; `getChatHistory` does `lRange key 0 -1`
  followed by parse and `reverse`.  The per-room Redis list
  `chat:room:<roomCode>:messages` is modelled as a newest-first
  `List ChatMessage`.
* `ChatMessageBus` (MessageBus.js): `connectWithRetry`, `handleGameEvent`
  and `askGameService`.
* `ChatSocketHandler` (socket-handlers/ChatSocketHandler.js, the RPC
  variant, and the direct-cache-read variant shipped alongside it):
  `handleJoinChatRoom`, `handleChatMessage`, `handleLeaveChatRoom`,
  `handleDisconnect`.

Handlers are modelled as pure functions from their inputs (socket state,
payload, the outcome of external reads, the current clock value) to the
list of externally visible effects they perform, in program order.
-/

namespace ChatService

/-- ChatMessage mirrors the JS object literals built by the handlers:
`{id, userId, username, message, timestamp, type}`.  `type` keeps the
source's string values: "message", "guess", "correct-guess", "system". -/
structure ChatMessage where
  id : String
  userId : String
  username : String
  message : String
  timestamp : Nat
  type : String
deriving DecidableEq, Repr

/-- Model of `storeChatMessage(roomCode, message)` acting on one room's
Redis list (newest first): `lPush` prepends, `lTrim key 0 99` keeps the
first 100 elements. -/
def storeChatMessage (stored : List ChatMessage) (msg : ChatMessage) : List ChatMessage :=
  (msg :: stored).take 100

/-- Model of `getChatHistory(roomCode)`: `lRange key 0 -1` reads the whole
newest-first list, and the handler reverses it to oldest-first. -/
def getChatHistory (stored : List ChatMessage) : List ChatMessage :=
  stored.reverse

/-- Redis key used by the chat-history operations in RedisSingleton.js. -/
def chatMessagesKey (roomCode : String) : String :=
  "chat:room:" ++ roomCode ++ ":messages"

/-- Redis key used by the membership operations in RedisSingleton.js. -/
def chatUsersKey (roomCode : String) : String :=
  "chat:room:" ++ roomCode ++ ":users"

theorem take_append_take (l x : List ChatMessage) :
    (l ++ x.take 100).take 100 = (l ++ x).take 100 := by
  rw [List.take_append_eq_append_take, List.take_append_eq_append_take, List.take_take]
  rw [Nat.min_eq_left (Nat.sub_le _ _)]

theorem foldl_storeChatMessage (msgs : List ChatMessage) :
    ∀ acc : List ChatMessage, acc.length ≤ 100 →
      msgs.foldl storeChatMessage acc = (msgs.reverse ++ acc).take 100 := by
  induction msgs with
  | nil =>
    intro acc hacc
    simpa using (List.take_of_length_le hacc).symm
  | cons m rest ih =>
    intro acc hacc
    have hlen : ((m :: acc).take 100).length ≤ 100 := by
      simpa using List.length_take_le 100 (m :: acc)
    have hstep : (m :: rest).foldl storeChatMessage acc =
        rest.foldl storeChatMessage ((m :: acc).take 100) := rfl
    rw [hstep, ih _ hlen, take_append_take]
    simp [List.reverse_cons, List.append_assoc]

theorem stored_eq_take_reverse (msgs : List ChatMessage) :
    msgs.foldl storeChatMessage [] = msgs.reverse.take 100 := by
  simpa using foldl_storeChatMessage msgs [] (by simp)

/-- Claim C2: after any sequence of more than 100 appends to a room,
`getChatHistory` returns exactly the 100 most recently appended messages
in chronological (oldest-first) order, and the stored list never exceeds
100 entries, for any append sequence whatsoever (oldest evicted first). -/
theorem chatHistoryBoundedRecent (msgs : List ChatMessage) (h : msgs.length > 100) :
    getChatHistory (msgs.foldl storeChatMessage []) = msgs.drop (msgs.length - 100) ∧
    ∀ ms : List ChatMessage, (ms.foldl storeChatMessage []).length ≤ 100 := by
  refine ⟨?_, ?_⟩
  · rw [getChatHistory, stored_eq_take_reverse]
    rw [List.reverse_take]
    simp
  · intro ms
    rw [stored_eq_take_reverse]
    simpa using List.length_take_le 100 ms.reverse

/-- Concrete message used to instantiate the chat-history claim. -/
def natMsg (i : Nat) : ChatMessage :=
  { id := toString i, userId := "u", username := "u",
    message := toString i, timestamp := i, type := "message" }

/-- Concrete sequence of 101 appended messages. -/
def c2msgs : List ChatMessage :=
  (List.range 101).map natMsg

theorem chatHistoryBoundedRecentWitness :
    getChatHistory (c2msgs.foldl storeChatMessage []) = c2msgs.drop (c2msgs.length - 100) :=
  (chatHistoryBoundedRecent c2msgs (by simp [c2msgs])).1

/-- Model of JS `String.prototype.toLowerCase` (character-wise lowering,
as the source applies it to guesses and words). -/
def jsToLower (s : String) : String :=
  String.mk (s.data.map Char.toLower)

/-- Model of JS `String.prototype.trim`: strip whitespace from both ends. -/
def jsTrim (s : String) : String :=
  String.mk (((s.data.dropWhile Char.isWhitespace).reverse.dropWhile
    Char.isWhitespace).reverse)

/-- JS truthiness for the string-valued fields the handlers test with
`if (!x)`: `undefined`/missing (`none`) and the empty string are falsy. -/
def jsTruthy : Option String → Bool
  | none => false
  | some s => !s.isEmpty

/-- Per-connection state: the fields `handleJoinChatRoom` writes onto the
socket object (`socket.roomCode`, `socket.userId`, `socket.username`),
plus the connection id `socket.id`.  Before a join they are `undefined`. -/
structure SocketState where
  sid : String
  roomCode : Option String
  userId : Option String
  username : Option String
deriving DecidableEq, Repr

/-- Payload of the inbound `join-chat-room` event; each field may be
missing. -/
structure JoinData where
  roomCode : Option String
  userId : Option String
  username : Option String
deriving DecidableEq, Repr

/-- Room/game snapshot as parsed from the externally owned cache entry:
`{gameStarted, gamePhase, currentDrawer, currentWord}`. -/
structure RoomGameState where
  gameStarted : Bool
  gamePhase : String
  currentDrawer : String
  currentWord : Option String
deriving DecidableEq, Repr

/-- Outcome of the `redisClient.getRoomData(roomCode)` call followed by
`JSON.parse`: the call throws, or returns a falsy value, or yields a
parsed room object. -/
inductive RoomDataLookup where
  | threw
  | noData
  | parsed (room : RoomGameState)
deriving DecidableEq, Repr

/-- Response data of the game-service RPC: `{isGameActive, isCorrect}`. -/
structure GameCheck where
  isGameActive : Bool
  isCorrect : Bool
deriving DecidableEq, Repr

/-- Externally visible effects a handler performs, in program order. -/
inductive Effect where
  | storeMsg (roomCode : String) (msg : ChatMessage)
  | emitChat (roomCode : String) (msg : ChatMessage)
  | emitHistory (msgs : List ChatMessage)
  | emitUserJoined (roomCode userId username : String)
  | emitUserLeft (roomCode userId username : String)
  | emitErr (message : String)
  | emitGameMode (roomCode : String) (isGameStarted : Bool) (message : String)
  | emitNewRound (roomCode : String) (round : Option Nat) (message : String)
  | emitGameRestarted (roomCode : String) (message : String)
  | askGame (action roomCode userId guess : String)
  | addUser (roomCode userId username sid : String) (joinedAt : Nat)
  | removeUser (roomCode userId : String)
  | socketJoin (roomCode : String)
  | socketLeave (roomCode : String)
deriving DecidableEq, Repr

/-- Method names defined by `RedisChatClient` (identical in the
node-redis and the ioredis variant of RedisSingleton.js). -/
def redisChatClientMethods : List String :=
  ["connect", "disconnect", "storeChatMessage", "getChatHistory",
   "addUserToRoom", "removeUserFromRoom", "getRoomUsers",
   "get", "set", "del", "exists"]

/-- Outcome of `redisClient.getRoomData(roomCode)` in the deployed code:
`RedisChatClient` defines no `getRoomData` method, so the call throws a
`TypeError`, caught by the handler's inner try/catch. -/
def getRoomDataOutcome : RoomDataLookup :=
  RoomDataLookup.threw

/-- Model of `handleJoinChatRoom(socket, data)`.  On missing
`roomCode`/`userId` it emits an `error` event and changes nothing; on
success it writes the socket fields, joins the room, upserts membership
in Redis, sends the requester the chat history and notifies the room. -/
def handleJoinChatRoom (sock : SocketState) (data : JoinData)
    (history : List ChatMessage) (now : Nat) : SocketState × List Effect :=
  if !(jsTruthy data.roomCode) || !(jsTruthy data.userId) then
    (sock, [Effect.emitErr "Room code and user ID required"])
  else
    let roomCode := data.roomCode.getD ""
    let userId := data.userId.getD ""
    let username := data.username.getD ""
    ({ sock with roomCode := data.roomCode, userId := data.userId,
                 username := data.username },
     [Effect.socketJoin roomCode,
      Effect.addUser roomCode userId username sock.sid now,
      Effect.emitHistory history,
      Effect.emitUserJoined roomCode userId username])

/-- Model of the direct-cache-read `handleChatMessage(socket, data)`
variant: the game state is looked up via `redisClient.getRoomData` (its
outcome is the `lookup` argument); a caught lookup failure leaves
`isGameActive`/`isCorrect` false.  A correct guess stores and broadcasts
one system-authored `correct-guess` message, fires a `check-guess`
notification to the game service, and suppresses the raw guess;
otherwise the raw message is stored and broadcast with type `guess`
(game active) or `message`. -/
def handleChatMessageCache (sock : SocketState) (message : Option String)
    (lookup : RoomDataLookup) (now : Nat) : List Effect :=
  if !(jsTruthy sock.roomCode) || !(jsTruthy message) then []
  else
    let roomCode := sock.roomCode.getD ""
    let userId := sock.userId.getD ""
    let username := sock.username.getD ""
    let msg := message.getD ""
    let checkRes : Bool × Bool × Option String :=
      match lookup with
      | RoomDataLookup.threw => (false, false, none)
      | RoomDataLookup.noData => (false, false, none)
      | RoomDataLookup.parsed room =>
        let isGameActive := room.gameStarted && room.gamePhase == "drawing"
        if isGameActive && room.currentDrawer != userId && jsTruthy room.currentWord then
          let w := room.currentWord.getD ""
          (isGameActive, jsTrim (jsToLower msg) == jsToLower w, some w)
        else
          (isGameActive, false, none)
    let isGameActive := checkRes.1
    let isCorrect := checkRes.2.1
    let currentWord := checkRes.2.2
    if isCorrect && jsTruthy currentWord then
      let w := currentWord.getD ""
      let celebration : ChatMessage :=
        { id := "correct-" ++ toString now ++ "-" ++ userId,
          userId := "system", username := "System",
          message := "🎉 " ++ username ++ " got it! The word was \"" ++ w ++ "\" (+points incoming)",
          timestamp := now, type := "correct-guess" }
      [Effect.storeMsg roomCode celebration,
       Effect.emitChat roomCode celebration,
       Effect.askGame "check-guess" roomCode userId (jsTrim msg)]
    else
      let chatMessage : ChatMessage :=
        { id := toString now ++ "-" ++ userId,
          userId := userId, username := username, message := msg,
          timestamp := now,
          type := if isGameActive then "guess" else "message" }
      [Effect.storeMsg roomCode chatMessage,
       Effect.emitChat roomCode chatMessage]

/-- Model of the RPC `handleChatMessage(socket, data)` variant
(socket-handlers/ChatSocketHandler.js): it awaits
`askGameService('check-guess', ...)` (the `gameCheck` argument is the
response) and branches on `isCorrect`; the celebratory text echoes the
trimmed guess, not the stored word. -/
def handleChatMessageRpc (sock : SocketState) (message : Option String)
    (gameCheck : GameCheck) (now : Nat) : List Effect :=
  if !(jsTruthy sock.roomCode) || !(jsTruthy message) then []
  else
    let roomCode := sock.roomCode.getD ""
    let userId := sock.userId.getD ""
    let username := sock.username.getD ""
    let msg := message.getD ""
    let ask := Effect.askGame "check-guess" roomCode userId (jsTrim msg)
    if gameCheck.isCorrect then
      let celebration : ChatMessage :=
        { id := "correct-" ++ toString now ++ "-" ++ userId,
          userId := "system", username := "System",
          message := "🎉 " ++ username ++ " got it! The word was \"" ++ jsTrim msg ++ "\" (+points incoming)",
          timestamp := now, type := "correct-guess" }
      [ask, Effect.storeMsg roomCode celebration, Effect.emitChat roomCode celebration]
    else
      let chatMessage : ChatMessage :=
        { id := toString now ++ "-" ++ userId,
          userId := userId, username := username, message := msg,
          timestamp := now,
          type := if gameCheck.isGameActive then "guess" else "message" }
      [ask, Effect.storeMsg roomCode chatMessage, Effect.emitChat roomCode chatMessage]

/-- Model of `handleLeaveChatRoom(socket)`: a no-op without a room;
otherwise removes membership, broadcasts `user-left-chat` and leaves the
broadcast group.  The socket's `roomCode`/`userId` fields are NOT
cleared by the source. -/
def handleLeaveChatRoom (sock : SocketState) : SocketState × List Effect :=
  if !(jsTruthy sock.roomCode) then (sock, [])
  else
    let roomCode := sock.roomCode.getD ""
    let userId := sock.userId.getD ""
    let username := sock.username.getD ""
    (sock,
     [Effect.removeUser roomCode userId,
      Effect.emitUserLeft roomCode userId username,
      Effect.socketLeave roomCode])

/-- Model of `handleDisconnect(socket)`: if the socket still carries
`roomCode` and `userId`, removes membership and broadcasts
`user-left-chat`.  The fields are NOT cleared by the source. -/
def handleDisconnect (sock : SocketState) : SocketState × List Effect :=
  if jsTruthy sock.roomCode && jsTruthy sock.userId then
    let roomCode := sock.roomCode.getD ""
    let userId := sock.userId.getD ""
    let username := sock.username.getD ""
    (sock,
     [Effect.removeUser roomCode userId,
      Effect.emitUserLeft roomCode userId username])
  else (sock, [])

/-- Guesser socket of the specification scenario: room "ABCD", user "u2". -/
def c1Sock : SocketState :=
  { sid := "s2", roomCode := some "ABCD", userId := some "u2", username := some "u2" }

/-- Game snapshot of the specification scenario: word "apple", drawer "u1",
drawing phase. -/
def c1Room : RoomGameState :=
  { gameStarted := true, gamePhase := "drawing", currentDrawer := "u1",
    currentWord := some "apple" }

/-- Message actually produced by the cache-read handler for the scenario. -/
def c1PlainMsg : ChatMessage :=
  { id := "17-u2", userId := "u2", username := "u2", message := "  ApPle ",
    timestamp := 17, type := "message" }

/-- Celebration the cache-read handler would produce were the lookup able
to return the room snapshot. -/
def c1Celebration : ChatMessage :=
  { id := "correct-17-u2", userId := "system", username := "System",
    message := "🎉 u2 got it! The word was \"apple\" (+points incoming)",
    timestamp := 17, type := "correct-guess" }

/-- Claim C1 (settled against the direct-cache-read handler, the only one
implementing the claimed local classification): in the scenario room
"ABCD" / word "apple" / drawer "u1", guesser "u2" sending "  ApPle " is
NOT classified correct — `redisClient.getRoomData` is undefined so the
lookup throws and the raw guess is persisted and broadcast with type
"message".  Had the lookup returned the snapshot, the handler would have
produced exactly the claimed single `correct-guess` system broadcast, so
the code, not the claim, is at fault. -/
theorem cacheHandlerMisclassifiesCorrectGuess :
    handleChatMessageCache c1Sock (some "  ApPle ") getRoomDataOutcome 17 =
      [Effect.storeMsg "ABCD" c1PlainMsg, Effect.emitChat "ABCD" c1PlainMsg] ∧
    c1PlainMsg.type = "message" ∧
    c1PlainMsg.message = "  ApPle " ∧
    handleChatMessageCache c1Sock (some "  ApPle ") (RoomDataLookup.parsed c1Room) 17 =
      [Effect.storeMsg "ABCD" c1Celebration, Effect.emitChat "ABCD" c1Celebration,
       Effect.askGame "check-guess" "ABCD" "u2" "ApPle"] ∧
    c1Celebration.type = "correct-guess" := by
  refine ⟨rfl, rfl, rfl, by decide, rfl⟩

/-- Expected shape of the one chat message the cache-read handler relays
when the game-state lookup fails. -/
def plainChatMessageOf (sock : SocketState) (message : Option String) (now : Nat) :
    ChatMessage :=
  { id := toString now ++ "-" ++ sock.userId.getD "",
    userId := sock.userId.getD "", username := sock.username.getD "",
    message := message.getD "", timestamp := now, type := "message" }

/-- Claim C5: `RedisChatClient` defines no `getRoomData` method, so in the
direct-cache-read handler every game-state lookup throws; the error is
caught, `isGameActive`/`isCorrect` stay false, and every relayed chat
message is persisted and broadcast verbatim with type "message" — the
cache-read path never produces a correct guess. -/
theorem cacheReadPathNeverCorrectGuess (sock : SocketState) (message : Option String)
    (now : Nat) (hroom : jsTruthy sock.roomCode = true) (hmsg : jsTruthy message = true) :
    "getRoomData" ∉ redisChatClientMethods ∧
    handleChatMessageCache sock message getRoomDataOutcome now =
      [Effect.storeMsg (sock.roomCode.getD "") (plainChatMessageOf sock message now),
       Effect.emitChat (sock.roomCode.getD "") (plainChatMessageOf sock message now)] ∧
    (plainChatMessageOf sock message now).type = "message" ∧
    (plainChatMessageOf sock message now).message = message.getD "" := by
  refine ⟨by decide, ?_, rfl, rfl⟩
  simp [handleChatMessageCache, getRoomDataOutcome, plainChatMessageOf, hroom, hmsg]

/-- Socket used to instantiate the cache-read-path claim. -/
def c5Sock : SocketState :=
  { sid := "s9", roomCode := some "ROOM", userId := some "u9", username := some "nina" }

theorem cacheReadPathNeverCorrectGuessWitness :
    "getRoomData" ∉ redisChatClientMethods ∧
    handleChatMessageCache c5Sock (some "hello") getRoomDataOutcome 3 =
      [Effect.storeMsg "ROOM" (plainChatMessageOf c5Sock (some "hello") 3),
       Effect.emitChat "ROOM" (plainChatMessageOf c5Sock (some "hello") 3)] ∧
    (plainChatMessageOf c5Sock (some "hello") 3).type = "message" ∧
    (plainChatMessageOf c5Sock (some "hello") 3).message = "hello" :=
  cacheReadPathNeverCorrectGuess c5Sock (some "hello") 3 (by decide) (by decide)

/-- Predicate picking out `user-left-chat` broadcasts. -/
def isUserLeft : Effect → Bool
  | Effect.emitUserLeft _ _ _ => true
  | _ => false

/-- Number of `user-left-chat` broadcasts in an effect list. -/
def countUserLeft (l : List Effect) : Nat :=
  (l.filter isUserLeft).length

/-- Socket state resulting from a fresh connection joining room "ABCD"
as user "u1"/"alice". -/
def c4Joined : SocketState :=
  (handleJoinChatRoom
    { sid := "s1", roomCode := none, userId := none, username := none }
    { roomCode := some "ABCD", userId := some "u1", username := some "alice" }
    [] 5).1

/-- Counterexample to claim C4 as stated: after join, disconnect followed
by disconnect broadcasts `user-left-chat` twice, not once — the handlers
never clear the socket's room fields, so the second call is not a silent
no-op. -/
theorem disconnectTwiceDoubleBroadcastCex :
    countUserLeft ((handleDisconnect c4Joined).2) +
      countUserLeft ((handleDisconnect (handleDisconnect c4Joined).1).2) = 2 := by
  decide

/-- Claim C4 as amended: join then disconnect then disconnect produces one
departure broadcast per disconnect call (two in total, not one), and no
error event on either call; likewise leave() followed by disconnect()
broadcasts departure twice, because the socket's room fields survive
cleanup.  The socket state itself is unchanged by the cleanup calls. -/
theorem disconnectRepeatBroadcasts (sock : SocketState) (data : JoinData)
    (history : List ChatMessage) (now : Nat)
    (hrc : jsTruthy data.roomCode = true) (huid : jsTruthy data.userId = true) :
    countUserLeft (handleDisconnect (handleJoinChatRoom sock data history now).1).2 = 1 ∧
    countUserLeft (handleDisconnect
      (handleDisconnect (handleJoinChatRoom sock data history now).1).1).2 = 1 ∧
    (∀ m, Effect.emitErr m ∉
      (handleDisconnect (handleJoinChatRoom sock data history now).1).2) ∧
    countUserLeft (handleLeaveChatRoom (handleJoinChatRoom sock data history now).1).2 = 1 ∧
    countUserLeft (handleDisconnect
      (handleLeaveChatRoom (handleJoinChatRoom sock data history now).1).1).2 = 1 ∧
    (handleDisconnect (handleJoinChatRoom sock data history now).1).1 =
      (handleJoinChatRoom sock data history now).1 := by
  have hguard : (!(jsTruthy data.roomCode) || !(jsTruthy data.userId)) = false := by
    rw [hrc, huid]; rfl
  refine ⟨?_, ?_, ?_, ?_, ?_, ?_⟩ <;>
    simp [handleJoinChatRoom, handleDisconnect, handleLeaveChatRoom,
          countUserLeft, isUserLeft, hguard, hrc, huid]

theorem disconnectRepeatBroadcastsWitness :
    countUserLeft (handleDisconnect c4Joined).2 = 1 ∧
    countUserLeft (handleDisconnect (handleDisconnect c4Joined).1).2 = 1 ∧
    (∀ m, Effect.emitErr m ∉ (handleDisconnect c4Joined).2) ∧
    countUserLeft (handleLeaveChatRoom c4Joined).2 = 1 ∧
    countUserLeft (handleDisconnect (handleLeaveChatRoom c4Joined).1).2 = 1 ∧
    (handleDisconnect c4Joined).1 = c4Joined :=
  disconnectRepeatBroadcasts
    { sid := "s1", roomCode := none, userId := none, username := none }
    { roomCode := some "ABCD", userId := some "u1", username := some "alice" }
    [] 5 (by decide) (by decide)

/-- Socket already in a room, used for the empty-message counterexample. -/
def c7Sock : SocketState :=
  { sid := "s7", roomCode := some "ROOM", userId := some "u7", username := some "greg" }

/-- Counterexample to claim C7 as stated: a chat message with empty text
is NOT rejected with a descriptive error event — both message handlers
return without emitting anything at all. -/
theorem emptyMessageNoErrorEventCex :
    handleChatMessageRpc c7Sock (some "") { isGameActive := false, isCorrect := false } 0
      = [] ∧
    handleChatMessageCache c7Sock (some "") getRoomDataOutcome 0 = [] := by
  exact ⟨rfl, rfl⟩

theorem handleChatMessageRpc_falsy (sock : SocketState) (message : Option String)
    (gameCheck : GameCheck) (now : Nat) (h : jsTruthy message = false) :
    handleChatMessageRpc sock message gameCheck now = [] := by
  unfold handleChatMessageRpc
  rw [h]
  simp

theorem handleChatMessageCache_falsy (sock : SocketState) (message : Option String)
    (lookup : RoomDataLookup) (now : Nat) (h : jsTruthy message = false) :
    handleChatMessageCache sock message lookup now = [] := by
  unfold handleChatMessageCache
  rw [h]
  simp

/-- Claim C7 as amended: a join request missing roomCode or userId is
rejected synchronously with the descriptive error event "Room code and
user ID required" and no state mutation; a chat message with empty (or
missing) text causes no state mutation either, but is dropped silently —
no error event is emitted for it. -/
theorem validationRejectsWithoutMutation (sock : SocketState) (data : JoinData)
    (history : List ChatMessage) (now : Nat) (gameCheck : GameCheck)
    (lookup : RoomDataLookup)
    (hbad : jsTruthy data.roomCode = false ∨ jsTruthy data.userId = false) :
    handleJoinChatRoom sock data history now =
      (sock, [Effect.emitErr "Room code and user ID required"]) ∧
    handleChatMessageRpc sock none gameCheck now = [] ∧
    handleChatMessageRpc sock (some "") gameCheck now = [] ∧
    handleChatMessageCache sock none lookup now = [] ∧
    handleChatMessageCache sock (some "") lookup now = [] := by
  have hguard : (!(jsTruthy data.roomCode) || !(jsTruthy data.userId)) = true := by
    rcases hbad with h | h <;> rw [h] <;> simp
  refine ⟨?_, ?_, ?_, ?_, ?_⟩
  · simp [handleJoinChatRoom, hguard]
  · exact handleChatMessageRpc_falsy sock none gameCheck now rfl
  · exact handleChatMessageRpc_falsy sock (some "") gameCheck now (by decide)
  · exact handleChatMessageCache_falsy sock none lookup now rfl
  · exact handleChatMessageCache_falsy sock (some "") lookup now (by decide)

theorem validationRejectsWithoutMutationWitness :
    handleJoinChatRoom c7Sock
        { roomCode := some "ABCD", userId := none, username := some "zoe" } [] 2 =
      (c7Sock, [Effect.emitErr "Room code and user ID required"]) ∧
    handleChatMessageRpc c7Sock none { isGameActive := false, isCorrect := false } 2 = [] ∧
    handleChatMessageRpc c7Sock (some "")
      { isGameActive := false, isCorrect := false } 2 = [] ∧
    handleChatMessageCache c7Sock none RoomDataLookup.threw 2 = [] ∧
    handleChatMessageCache c7Sock (some "") RoomDataLookup.threw 2 = [] :=
  validationRejectsWithoutMutation c7Sock
    { roomCode := some "ABCD", userId := none, username := some "zoe" }
    [] 2 { isGameActive := false, isCorrect := false } RoomDataLookup.threw
    (Or.inr (by decide))

/-- Reply delivered on the per-request reply queue: either `JSON.parse`
throws (malformed), or it yields a ResponseEnvelope `{requestId, data}`. -/
inductive ReplyMsg where
  | malformed
  | parsed (requestId : String) (data : GameCheck)
deriving DecidableEq, Repr

/-- Actions the reply-queue consumer callback may take on one message. -/
inductive RpcAction where
  | clearTimer
  | ackMsg
  | nackMsg
  | resolveData (d : GameCheck)
deriving DecidableEq, Repr

/-- Conservative default `askGameService` resolves with on timeout or on a
transport error: `{isGameActive: false, isCorrect: false}`. -/
def defaultGameCheck : GameCheck :=
  { isGameActive := false, isCorrect := false }

/-- Timeout, in milliseconds, of the askGameService response wait
(`setTimeout(..., 1000)` in MessageBus.js). -/
def rpcTimeoutMs : Nat := 1000

/-- Model of the reply-queue consumer callback of `askGameService` on one
delivered message: a matching parsed reply cancels the timer, acks and
resolves; a parsed reply with a different requestId does nothing; a
malformed reply is nacked. -/
def replyAction (requestId : String) (m : ReplyMsg) : List RpcAction :=
  match m with
  | ReplyMsg.malformed => [RpcAction.nackMsg]
  | ReplyMsg.parsed rid d =>
    if rid == requestId then [RpcAction.clearTimer, RpcAction.ackMsg, RpcAction.resolveData d]
    else []

/-- Data of the first parsed reply matching the correlation id,
if any arrives before the timeout. -/
def firstMatch (requestId : String) : List ReplyMsg → Option GameCheck
  | [] => none
  | ReplyMsg.malformed :: rest => firstMatch requestId rest
  | ReplyMsg.parsed rid d :: rest =>
    if rid == requestId then some d else firstMatch requestId rest

/-- Model of `askGameService(action, data)`: `setup` is the combined
outcome of the reply-queue assertion and the request publish (both are
wrapped in the same try/catch, whose catch returns the default);
`replies` are the messages delivered on the reply queue before the
1000 ms timeout, in arrival order.  The promise resolves with the first
matching reply's data, or with the conservative default when the timeout
fires first. -/
def askGameService (setup : Except String Unit) (requestId : String)
    (replies : List ReplyMsg) : GameCheck :=
  match setup with
  | Except.error _ => defaultGameCheck
  | Except.ok _ =>
    match firstMatch requestId replies with
    | some d => d
    | none => defaultGameCheck

theorem firstMatch_eq_none (requestId : String) (replies : List ReplyMsg)
    (h : ∀ rid d, ReplyMsg.parsed rid d ∈ replies → rid ≠ requestId) :
    firstMatch requestId replies = none := by
  induction replies with
  | nil => rfl
  | cons m rest ih =>
    match m with
    | ReplyMsg.malformed =>
      exact ih fun rid d hm => h rid d (List.mem_cons_of_mem _ hm)
    | ReplyMsg.parsed rid d =>
      have hne : rid ≠ requestId := h rid d (List.mem_cons_self _ _)
      have : (rid == requestId) = false := beq_false_of_ne hne
      simp only [firstMatch, this, if_false]
      exact ih fun rid2 d2 hm => h rid2 d2 (List.mem_cons_of_mem _ hm)

theorem firstMatch_mem (requestId : String) (replies : List ReplyMsg) (d : GameCheck)
    (h : firstMatch requestId replies = some d) :
    ReplyMsg.parsed requestId d ∈ replies := by
  induction replies with
  | nil => exact absurd h (by simp [firstMatch])
  | cons m rest ih =>
    match m with
    | ReplyMsg.malformed =>
      exact List.mem_cons_of_mem _ (ih h)
    | ReplyMsg.parsed rid d2 =>
      by_cases hb : (rid == requestId) = true
      · have heq : rid = requestId := eq_of_beq hb
        have : some d2 = some d := by simpa [firstMatch, hb] using h
        have hd : d2 = d := Option.some.injEq _ _ ▸ this
        subst heq
        subst hd
        exact List.mem_cons_self _ _
      · have hb2 : (rid == requestId) = false := by
          simpa using hb
        have : firstMatch requestId rest = some d := by
          simpa [firstMatch, hb2] using h
        exact List.mem_cons_of_mem _ (ih this)

/-- Claim C3: the RPC timeout is 1000 ms; when no reply carrying the
call's correlation id arrives before it, `askGameService` resolves with
the conservative default `{isGameActive:false, isCorrect:false}`, and in
general every call has exactly one terminal outcome — the first matching
reply's data, or the timeout default. -/
theorem askGameServiceTimeoutDefault (requestId : String) (replies : List ReplyMsg) :
    rpcTimeoutMs = 1000 ∧
    ((∀ rid d, ReplyMsg.parsed rid d ∈ replies → rid ≠ requestId) →
      askGameService (Except.ok ()) requestId replies = defaultGameCheck) ∧
    (askGameService (Except.ok ()) requestId replies = defaultGameCheck ∨
      ∃ d, ReplyMsg.parsed requestId d ∈ replies ∧
        askGameService (Except.ok ()) requestId replies = d) := by
  refine ⟨rfl, ?_, ?_⟩
  · intro h
    simp [askGameService, firstMatch_eq_none requestId replies h]
  · cases hfm : firstMatch requestId replies with
    | none => exact Or.inl (by simp [askGameService, hfm])
    | some d =>
      exact Or.inr ⟨d, firstMatch_mem requestId replies d hfm,
        by simp [askGameService, hfm]⟩

theorem askGameServiceTimeoutDefaultWitness :
    askGameService (Except.ok ()) "req-1"
      [ReplyMsg.parsed "req-2" { isGameActive := true, isCorrect := true },
       ReplyMsg.malformed] = defaultGameCheck :=
  (askGameServiceTimeoutDefault "req-1"
    [ReplyMsg.parsed "req-2" { isGameActive := true, isCorrect := true },
     ReplyMsg.malformed]).2.1 (by
      intro rid d hm
      simp only [List.mem_cons, List.not_mem_nil, or_false] at hm
      rcases hm with h | h
      · injection h with h1 h2
        subst h1
        decide
      · exact ReplyMsg.noConfusion h)

/-- Counterexample to claim C6 as stated: a well-formed reply whose
requestId does not match the call's correlation id is NOT negatively
acknowledged — the consumer callback does nothing at all with it. -/
theorem nonMatchingReplyNotNackedCex :
    replyAction "req-1" (ReplyMsg.parsed "req-2" defaultGameCheck) = [] := by
  decide

/-- Claim C6 as amended: a well-formed reply with a non-matching
requestId is ignored — neither acknowledged nor negatively acknowledged,
and it never resolves the promise; only an unparseable reply is
negatively acknowledged. -/
theorem nonMatchingReplyIgnored (requestId rid : String) (d : GameCheck)
    (h : rid ≠ requestId) :
    replyAction requestId (ReplyMsg.parsed rid d) = [] ∧
    replyAction requestId ReplyMsg.malformed = [RpcAction.nackMsg] ∧
    ∀ replies : List ReplyMsg,
      (∀ r d2, ReplyMsg.parsed r d2 ∈ replies → r ≠ requestId) →
        askGameService (Except.ok ()) requestId replies = defaultGameCheck := by
  refine ⟨?_, rfl, ?_⟩
  · simp [replyAction, beq_false_of_ne h]
  · intro replies hr
    simp [askGameService, firstMatch_eq_none requestId replies hr]

theorem nonMatchingReplyIgnoredWitness :
    replyAction "req-1" (ReplyMsg.parsed "req-2" defaultGameCheck) = [] ∧
    replyAction "req-1" ReplyMsg.malformed = [RpcAction.nackMsg] ∧
    ∀ replies : List ReplyMsg,
      (∀ r d2, ReplyMsg.parsed r d2 ∈ replies → r ≠ "req-1") →
        askGameService (Except.ok ()) "req-1" replies = defaultGameCheck :=
  nonMatchingReplyIgnored "req-1" "req-2" defaultGameCheck (by decide)

/-- Claim C8: when reply-queue assertion or the request publish fails,
`askGameService` returns the conservative default rather than
propagating the error. -/
theorem rpcErrorYieldsDefault (e : String) (requestId : String)
    (replies : List ReplyMsg) :
    askGameService (Except.error e) requestId replies = defaultGameCheck :=
  rfl

/-- Payload fields of a GameEventEnvelope's `data` that
`handleGameEvent` reads; each may be absent. -/
structure GameEventData where
  message : Option String
  userId : Option String
  round : Option Nat
deriving DecidableEq, Repr

/-- Broker delivery as seen by `handleGameEvent`: either `JSON.parse`
throws, or it yields an envelope `{type, roomCode, data}`. -/
inductive GameEventMsg where
  | malformed
  | event (type : String) (roomCode : String) (data : GameEventData)
deriving DecidableEq, Repr

/-- Model of `handleGameEvent(msg)`: the type switch maps lifecycle
events to room-scoped emits; a parse failure is caught (the message is
acknowledged regardless by the consumer); an unrecognized type is logged
and produces nothing. -/
def handleGameEvent (now : Nat) (msg : GameEventMsg) : List Effect :=
  match msg with
  | GameEventMsg.malformed => []
  | GameEventMsg.event t roomCode data =>
    if t == "game-started" then
      [Effect.emitGameMode roomCode true
        "Game started! Your messages will be treated as guesses."]
    else if t == "game-ended" then
      [Effect.emitGameMode roomCode false "Game ended! Back to chat mode."]
    else if t == "correct-guess" then
      if jsTruthy data.message then
        [Effect.emitChat roomCode
          { id := "points-" ++ toString now ++ "-" ++ data.userId.getD "",
            userId := "system", username := "System",
            message := data.message.getD "", timestamp := now, type := "system" }]
      else []
    else if t == "new-round" then
      [Effect.emitNewRound roomCode data.round "New round started! Chat cleared."]
    else if t == "game-restarted" then
      [Effect.emitGameRestarted roomCode "Game restarted! Chat cleared."]
    else []

/-- Predicate picking out chat-history writes. -/
def isStoreEffect : Effect → Bool
  | Effect.storeMsg _ _ => true
  | _ => false

/-- Claim C9: dispatching a `new-round` envelope with `data.round = 3`
emits exactly one `new-round` event to the room carrying round 3 and the
fixed message "New round started! Chat cleared.", and performs no
chat-history write. -/
theorem newRoundEventRoundTrip (now : Nat) (roomCode : String)
    (message : Option String) (userId : Option String) :
    handleGameEvent now (GameEventMsg.event "new-round" roomCode
        { message := message, userId := userId, round := some 3 }) =
      [Effect.emitNewRound roomCode (some 3) "New round started! Chat cleared."] ∧
    (handleGameEvent now (GameEventMsg.event "new-round" roomCode
        { message := message, userId := userId, round := some 3 })).filter
      isStoreEffect = [] := by
  constructor <;> rfl

/-- Single connect-and-declare action trace of the broker supervisor. -/
inductive BrokerAction where
  | connectAttempt (n : Nat)
  | assertExchange (name kind : String) (durable : Bool)
  | assertQueue (name : String) (durable : Bool)
  | bindQueue (queue exchange pattern : String)
  | consumeQueue (queue : String)
  | sleep (ms : Nat)
deriving DecidableEq, Repr

/-- Topology declared on a successful connection attempt, in source
order: the durable topic exchange `game.events`, the durable direct
exchanges `game.requests` and `game.responses`, the durable queue
`chat.game.events` bound with the wildcard `game.event.*`, and the
consumer on that queue. -/
def topologyActions : List BrokerAction :=
  [BrokerAction.assertExchange "game.events" "topic" true,
   BrokerAction.assertExchange "game.requests" "direct" true,
   BrokerAction.assertExchange "game.responses" "direct" true,
   BrokerAction.assertQueue "chat.game.events" true,
   BrokerAction.bindQueue "chat.game.events" "game.events" "game.event.*",
   BrokerAction.consumeQueue "chat.game.events"]

/-- Model of the retry loop body of `connectWithRetry`: `outcomes k` is
the result of the whole k-th try block (connect, channel and topology
declaration together — any throw inside it is caught by the one catch).
`remaining` counts the attempts still allowed including the current one
(`remaining = maxRetries - attempt + 1`); `remaining = 1` is the last
attempt, whose failure is rethrown; earlier failures sleep `retryDelay`
and loop. -/
def connectLoop (outcomes : Nat → Except String Unit) (retryDelay : Nat) :
    Nat → Nat → List BrokerAction × Except String Unit
  | _, 0 => ([], Except.ok ())
  | attempt, remaining + 1 =>
    match outcomes attempt with
    | Except.ok _ => (BrokerAction.connectAttempt attempt :: topologyActions, Except.ok ())
    | Except.error e =>
      match remaining with
      | 0 => ([BrokerAction.connectAttempt attempt], Except.error e)
      | r + 1 =>
        let rest := connectLoop outcomes retryDelay (attempt + 1) (r + 1)
        (BrokerAction.connectAttempt attempt :: BrokerAction.sleep retryDelay :: rest.1,
         rest.2)

/-- Model of `connectWithRetry(maxRetries = 5, retryDelay = 5000)`:
attempts are numbered 1..maxRetries. -/
def connectWithRetry (outcomes : Nat → Except String Unit)
    (maxRetries retryDelay : Nat) : List BrokerAction × Except String Unit :=
  connectLoop outcomes retryDelay 1 maxRetries

/-- Number of connection attempts recorded in a trace. -/
def countAttempts (l : List BrokerAction) : Nat :=
  (l.filter fun a => match a with
    | BrokerAction.connectAttempt _ => true
    | _ => false).length

/-- Trace of `remaining` consecutive failing attempts starting at
`attempt`: each non-final failure is followed by a sleep. -/
def allFailTrace (retryDelay : Nat) : Nat → Nat → List BrokerAction
  | _, 0 => []
  | attempt, 1 => [BrokerAction.connectAttempt attempt]
  | attempt, r + 2 =>
    BrokerAction.connectAttempt attempt :: BrokerAction.sleep retryDelay ::
      allFailTrace retryDelay (attempt + 1) (r + 1)

/-- Trace of `j` failing attempts starting at `attempt`, each followed by
a sleep (used before an eventual success). -/
def failSleepTrace (retryDelay : Nat) : Nat → Nat → List BrokerAction
  | _, 0 => []
  | attempt, j + 1 =>
    BrokerAction.connectAttempt attempt :: BrokerAction.sleep retryDelay ::
      failSleepTrace retryDelay (attempt + 1) j

theorem countAttempts_topology : countAttempts topologyActions = 0 := rfl

theorem countAttempts_cons_attempt (n : Nat) (l : List BrokerAction) :
    countAttempts (BrokerAction.connectAttempt n :: l) = countAttempts l + 1 := by
  simp [countAttempts]

theorem countAttempts_cons_sleep (ms : Nat) (l : List BrokerAction) :
    countAttempts (BrokerAction.sleep ms :: l) = countAttempts l := by
  simp [countAttempts]

theorem connectLoop_ok (outcomes : Nat → Except String Unit)
    (retryDelay attempt r : Nat) (h : outcomes attempt = Except.ok ()) :
    connectLoop outcomes retryDelay attempt (r + 1) =
      (BrokerAction.connectAttempt attempt :: topologyActions, Except.ok ()) := by
  rw [connectLoop, h]

theorem connectLoop_err_last (outcomes : Nat → Except String Unit)
    (retryDelay attempt : Nat) (e : String) (h : outcomes attempt = Except.error e) :
    connectLoop outcomes retryDelay attempt 1 =
      ([BrokerAction.connectAttempt attempt], Except.error e) := by
  rw [connectLoop, h]

theorem connectLoop_err_step (outcomes : Nat → Except String Unit)
    (retryDelay attempt r : Nat) (e : String) (h : outcomes attempt = Except.error e) :
    connectLoop outcomes retryDelay attempt (r + 2) =
      (BrokerAction.connectAttempt attempt :: BrokerAction.sleep retryDelay ::
        (connectLoop outcomes retryDelay (attempt + 1) (r + 1)).1,
       (connectLoop outcomes retryDelay (attempt + 1) (r + 1)).2) := by
  rw [connectLoop, h]

theorem connectLoop_countAttempts (outcomes : Nat → Except String Unit)
    (retryDelay : Nat) :
    ∀ remaining attempt,
      countAttempts (connectLoop outcomes retryDelay attempt remaining).1 ≤ remaining := by
  intro remaining
  induction remaining with
  | zero => intro attempt; simp [connectLoop, countAttempts]
  | succ r ih =>
    intro attempt
    cases houtcome : outcomes attempt with
    | ok u =>
      cases u
      rw [connectLoop_ok outcomes retryDelay attempt r houtcome]
      simp only
      rw [countAttempts_cons_attempt, countAttempts_topology]
      omega
    | error e =>
      cases r with
      | zero =>
        rw [connectLoop_err_last outcomes retryDelay attempt e houtcome]
        simp [countAttempts]
      | succ r2 =>
        rw [connectLoop_err_step outcomes retryDelay attempt r2 e houtcome]
        simp only
        rw [countAttempts_cons_attempt, countAttempts_cons_sleep]
        have := ih (attempt + 1)
        omega

theorem connectLoop_allFail (outcomes : Nat → Except String Unit)
    (retryDelay : Nat) (errs : Nat → String) :
    ∀ remaining attempt, 1 ≤ remaining →
      (∀ i, i < remaining → outcomes (attempt + i) = Except.error (errs (attempt + i))) →
      connectLoop outcomes retryDelay attempt remaining =
        (allFailTrace retryDelay attempt remaining,
         Except.error (errs (attempt + remaining - 1))) := by
  intro remaining
  induction remaining with
  | zero => intro attempt h; omega
  | succ r ih =>
    intro attempt _ hfail
    have h0 : outcomes attempt = Except.error (errs attempt) := by
      simpa using hfail 0 (Nat.succ_pos r)
    cases r with
    | zero =>
      rw [connectLoop_err_last outcomes retryDelay attempt (errs attempt) h0]
      simp only [allFailTrace, Nat.add_sub_cancel]
    | succ r2 =>
      have hrec := ih (attempt + 1) (Nat.succ_le_succ (Nat.zero_le r2)) (by
        intro i hi
        have := hfail (i + 1) (by omega)
        simpa [Nat.add_assoc, Nat.add_comm 1 i] using this)
      rw [connectLoop_err_step outcomes retryDelay attempt r2 (errs attempt) h0]
      simp only [hrec, allFailTrace]
      rw [show attempt + (r2 + 1 + 1) - 1 = attempt + 1 + (r2 + 1) - 1 from by omega]

theorem connectLoop_success (outcomes : Nat → Except String Unit)
    (retryDelay : Nat) (errs : Nat → String) :
    ∀ j remaining attempt, j + 1 ≤ remaining →
      (∀ i, i < j → outcomes (attempt + i) = Except.error (errs (attempt + i))) →
      outcomes (attempt + j) = Except.ok () →
      connectLoop outcomes retryDelay attempt remaining =
        (failSleepTrace retryDelay attempt j ++
          BrokerAction.connectAttempt (attempt + j) :: topologyActions,
         Except.ok ()) := by
  intro j
  induction j with
  | zero =>
    intro remaining attempt hle _ hok
    cases remaining with
    | zero => omega
    | succ r =>
      simp only [Nat.add_zero] at hok
      rw [connectLoop_ok outcomes retryDelay attempt r hok]
      simp [failSleepTrace]
  | succ j2 ih =>
    intro remaining attempt hle hfail hok
    have h0 : outcomes attempt = Except.error (errs attempt) := by
      simpa using hfail 0 (Nat.succ_pos j2)
    cases remaining with
    | zero => omega
    | succ r =>
      cases r with
      | zero => omega
      | succ r2 =>
        have hrec := ih (r2 + 1) (attempt + 1) (by omega)
          (by
            intro i hi
            have := hfail (i + 1) (by omega)
            simpa [Nat.add_assoc, Nat.add_comm 1 i] using this)
          (by
            have : attempt + 1 + j2 = attempt + (j2 + 1) := by omega
            rw [this]
            exact hok)
        rw [connectLoop_err_step outcomes retryDelay attempt r2 (errs attempt) h0]
        simp only [hrec, failSleepTrace, List.cons_append]
        rw [show attempt + (j2 + 1) = attempt + 1 + j2 from by omega]

/-- Claim C10: `connectWithRetry(maxRetries, retryDelay)` makes at most
`maxRetries` connection attempts; when every attempt fails it sleeps
`retryDelay` between consecutive attempts and propagates the last error
to the caller; when attempt `1 + j` is the first to succeed it declares
the topology (durable topic exchange `game.events`, durable direct
exchanges `game.requests`/`game.responses`, durable queue
`chat.game.events` bound with wildcard `game.event.*`) exactly once and
performs no further attempts. -/
theorem connectWithRetryBehavior (outcomes : Nat → Except String Unit)
    (maxRetries retryDelay : Nat) (errs : Nat → String) :
    countAttempts (connectWithRetry outcomes maxRetries retryDelay).1 ≤ maxRetries ∧
    (1 ≤ maxRetries →
      (∀ i, i < maxRetries → outcomes (1 + i) = Except.error (errs (1 + i))) →
      connectWithRetry outcomes maxRetries retryDelay =
        (allFailTrace retryDelay 1 maxRetries, Except.error (errs maxRetries))) ∧
    (∀ j, j + 1 ≤ maxRetries →
      (∀ i, i < j → outcomes (1 + i) = Except.error (errs (1 + i))) →
      outcomes (1 + j) = Except.ok () →
      connectWithRetry outcomes maxRetries retryDelay =
        (failSleepTrace retryDelay 1 j ++
          BrokerAction.connectAttempt (1 + j) :: topologyActions,
         Except.ok ())) := by
  refine ⟨connectLoop_countAttempts outcomes retryDelay maxRetries 1, ?_, ?_⟩
  · intro hge hfail
    have h2 := connectLoop_allFail outcomes retryDelay errs maxRetries 1 hge hfail
    rw [show 1 + maxRetries - 1 = maxRetries from by omega] at h2
    rw [connectWithRetry, h2]
  · intro j hle hfail hok
    exact connectLoop_success outcomes retryDelay errs j maxRetries 1 hle hfail hok

/-- Concrete attempt-outcome sequence in which every attempt fails. -/
def failingOutcomes (k : Nat) : Except String Unit :=
  Except.error ("boom-" ++ toString k)

/-- Concrete attempt-outcome sequence in which attempt 2 succeeds. -/
def eventualOutcomes (k : Nat) : Except String Unit :=
  if k == 2 then Except.ok () else Except.error ("boom-" ++ toString k)

theorem connectWithRetryBehaviorWitness :
    connectWithRetry failingOutcomes 3 7 =
      (allFailTrace 7 1 3, Except.error "boom-3") ∧
    connectWithRetry eventualOutcomes 3 7 =
      (failSleepTrace 7 1 1 ++ BrokerAction.connectAttempt 2 :: topologyActions,
       Except.ok ()) := by
  constructor
  · exact (connectWithRetryBehavior failingOutcomes 3 7
      (fun k => "boom-" ++ toString k)).2.1 (by omega) (fun i _ => rfl)
  · exact (connectWithRetryBehavior eventualOutcomes 3 7
      (fun k => "boom-" ++ toString k)).2.2 1 (by omega)
      (by
        intro i hi
        interval_cases i
        rfl)
      rfl

end ChatService
